import Mathlib

/-!
# Verification of the AzureShield IAM repository against its design spec

This file gives a shallow embedding of the repository's code and settles the
spec's claims against it.

* `Frontend` embeds the browser-side code that is present in `src/`:
  `src/frontend/src/services/api.ts` (the `ApiService` singleton: localStorage
  keys, request/response interceptors, `refreshToken`, `handleAuthError`) and
  `src/frontend/src/contexts/AuthContext.tsx` (`handleAuthResponse`, `login`),
  plus the data-model interfaces of the frontend type declarations
  (`Policy`, `PolicyRule`).
* `Evaluator`, `TokenService` and `Mfa` model the backend decision engine,
  which is not present in `src/` (the repository ships only the frontend,
  infrastructure files and the backend requirements list); these definitions
  are modelled from the spec, as marked in their doc comments.

localStorage is embedded as an association list from string keys to string
values; promise rejection is embedded as `Except`; the browser redirect
performed by `window.location.href = ...` is embedded as a `Bool` flag.
-/

namespace Frontend

/-- Browser localStorage: an association list of key/value pairs. -/
def Store : Type := List (String × String)

instance : DecidableEq Store := by
  unfold Store
  infer_instance

/-- `localStorage.getItem(k)`. -/
def getItem (s : Store) (k : String) : Option String :=
  (List.find? (fun p => p.1 == k) s).map (fun p => p.2)

/-- `localStorage.setItem(k, v)` (replaces any previous binding of `k`). -/
def setItem (s : Store) (k v : String) : Store :=
  (k, v) :: List.filter (fun p => p.1 != k) s

/-- `localStorage.removeItem(k)`. -/
def removeItem (s : Store) (k : String) : Store :=
  List.filter (fun p => p.1 != k) s

/-- The `LoginResponse` interface of the frontend API types:
snake_case token fields, as returned by the backend. -/
structure LoginResponse where
  access_token : String
  refresh_token : String
  token_type : String
  expires_in : Nat
deriving DecidableEq

/-- The `AuthResponse` shape consumed by `AuthContext.handleAuthResponse`:
camelCase token fields (`response.accessToken`, `response.refreshToken`). -/
structure AuthResponse where
  accessToken : String
  refreshToken : String
deriving DecidableEq

/-- `AuthContext.handleAuthResponse`: writes the tokens under the camelCase
keys `accessToken` and `refreshToken`. -/
def handleAuthResponse (s : Store) (r : AuthResponse) : Store :=
  setItem (setItem s "accessToken" r.accessToken) "refreshToken" r.refreshToken

/-- `AuthContext.login`: calls `api.login` and, on success, stores the
response via `handleAuthResponse` (the dashboard redirect is omitted; it does
not touch localStorage). `apiLogin` stands for the network call. -/
def login (apiLogin : String → String → Option AuthResponse) (s : Store)
    (email password : String) : Option Store :=
  (apiLogin email password).map (handleAuthResponse s)

/-- The `ApiService` request interceptor: reads the snake_case key
`access_token` and, when present, attaches `Authorization: Bearer <token>`. -/
def requestAuthHeader (s : Store) : Option String :=
  (getItem s "access_token").map (fun t => "Bearer " ++ t)

/-- The ways `ApiService.refreshToken` can fail: no stored `refresh_token`
(`throw new Error('No refresh token available')`), or the refresh request
itself failed. -/
inductive RefreshError where
  | noRefreshToken
  | requestFailed
deriving DecidableEq

/-- Outcome of `ApiService.refreshToken`: the localStorage state afterwards,
whether `handleAuthError` redirected to the login page, and the
success/failure result. -/
structure RefreshOutcome where
  store : Store
  redirected : Bool
  result : Except RefreshError Unit

/-- `ApiService.handleAuthError`: removes both snake_case token keys and
redirects to `/auth/login`. -/
def handleAuthError (s : Store) : Store :=
  removeItem (removeItem s "access_token") "refresh_token"

/-- `ApiService.refreshToken`. `post` stands for the
`POST /auth/refresh` call: given the presented refresh token it returns the
new token pair, or `none` when the request fails. On any failure the catch
block runs `handleAuthError` (clearing both snake_case keys and redirecting)
and rethrows. On success both snake_case keys are overwritten. -/
def refreshToken (post : String → Option LoginResponse) (s : Store) :
    RefreshOutcome :=
  match getItem s "refresh_token" with
  | none => ⟨handleAuthError s, true, Except.error RefreshError.noRefreshToken⟩
  | some rt =>
    match post rt with
    | none => ⟨handleAuthError s, true, Except.error RefreshError.requestFailed⟩
    | some resp =>
      ⟨setItem (setItem s "access_token" resp.access_token)
          "refresh_token" resp.refresh_token,
        false, Except.ok ()⟩

/-- An HTTP error observed by the response interceptor: its status code and a
tag identifying the error object. -/
structure HttpError where
  status : Nat
  tag : String
deriving DecidableEq

/-- What the interceptor's rejected promise carries: the original error, or
the error thrown by `refreshToken` when the awaited refresh itself fails. -/
inductive CarriedError where
  | original (e : HttpError)
  | refreshFailure (e : RefreshError)
deriving DecidableEq

/-- Outcome of the `ApiService` response interceptor on an error response:
localStorage afterwards, whether a redirect happened, whether the failed
request was retried, and the error the rejected promise carries. -/
structure InterceptorOutcome where
  store : Store
  redirected : Bool
  retried : Bool
  rejection : CarriedError

/-- The `ApiService` response interceptor's error handler: on status 401 it
awaits `this.refreshToken()` — if that throws, the interceptor's promise
rejects with the refresh error and the final `Promise.reject(error)` is never
reached; if it succeeds, the interceptor rejects with the original error. The
request is never replayed. Non-401 errors are rejected unchanged. -/
def responseInterceptorOnError (post : String → Option LoginResponse)
    (s : Store) (e : HttpError) : InterceptorOutcome :=
  if e.status == 401 then
    let r := refreshToken post s
    match r.result with
    | Except.ok _ => ⟨r.store, r.redirected, false, CarriedError.original e⟩
    | Except.error re => ⟨r.store, r.redirected, false, CarriedError.refreshFailure re⟩
  else
    ⟨s, false, false, CarriedError.original e⟩

/-- The `effect` values admitted by the `PolicyRule` interface:
`'allow' | 'deny'`. -/
inductive Effect where
  | allow
  | deny
deriving DecidableEq

/-- The `PolicyRule` interface of the frontend API types: the effect lives on
each rule, together with its action list, resource list and optional
conditions map. -/
structure PolicyRule where
  effect : Effect
  action : List String
  resource : List String
  conditions : Option (List (String × List String))
deriving DecidableEq

/-- The `Policy` interface of the frontend API types: id, name, description,
list of rules, creation timestamp and version. It has no effect field of its
own. -/
structure Policy where
  id : String
  name : String
  description : String
  rules : List PolicyRule
  created_at : String
  version : Nat
deriving DecidableEq

/-- The policy-level effect a `Policy` value determines, if any: when all of
its rules agree on one effect, that effect; otherwise none (the `Policy`
interface itself carries no effect field, only its rules do). -/
def policyLevelEffect (p : Policy) : Option Effect :=
  match p.rules.map (fun r => r.effect) with
  | [] => none
  | e :: es => if es.all (fun x => x == e) then some e else none

/-- Structural-validation failure of a policy write. -/
inductive ValidationError where
  | validationError
deriving DecidableEq

/-- The store after editing an existing policy: every entry with the edited
id is replaced by the incoming policy carrying the incremented version. -/
def upsertEdit (store : List Policy) (p : Policy) (oldVersion : Nat) :
    List Policy :=
  store.map (fun q =>
    if q.id == p.id then { p with version := oldVersion + 1 } else q)

/-- Modelled from the spec: `upsertPolicy` of the Policy Store is not in
`src/` (the backend is absent from the repository). Per the spec it validates
the rule set structurally (`ValidationError`, no partial write) and, when the
policy already exists, atomically increments the stored version; a new policy
starts at version 1. `valid` stands for the structural rule check. -/
def upsertPolicy (valid : PolicyRule → Bool) (store : List Policy)
    (p : Policy) : Except ValidationError (List Policy) :=
  if p.rules.all valid then
    match List.find? (fun q => q.id == p.id) store with
    | some old => Except.ok (upsertEdit store p old.version)
    | none => Except.ok ({ p with version := 1 } :: store)
  else
    Except.error ValidationError.validationError

end Frontend

namespace Evaluator

/-- Policy effect, per the spec's data model: `effect (allow|deny)`. -/
inductive Effect where
  | allow
  | deny
deriving DecidableEq

/-- Attribute values: arbitrary scalar types per the spec (string, number,
bool; IPs and timestamps are carried as numbers). -/
inductive Value where
  | str (s : String)
  | num (n : Int)
  | boolean (b : Bool)
deriving DecidableEq

/-- Rule operators, per the spec's data model. -/
inductive Op where
  | equals
  | contains
  | startsWith
  | endsWith
  | greaterThan
  | lessThan
  | inRange
  | timeWindow
  | ipRange
deriving DecidableEq

/-- Substring test on character lists: `pat` occurs inside `s`. -/
def isSubstrAux (pat : List Char) : List Char → Bool
  | [] => pat.isEmpty
  | c :: rest => List.isPrefixOf pat (c :: rest) || isSubstrAux pat rest

/-- Substring test on strings. -/
def isSubstr (pat s : String) : Bool :=
  isSubstrAux pat.toList s.toList

/-- CIDR-style check: the top `plen` bits of the 32-bit addresses agree. -/
def ipInRange (ip base plen : Int) : Bool :=
  ip.toNat >>> (32 - plen.toNat) == base.toNat >>> (32 - plen.toNat)

/-- Applying a rule operator to the attribute's value and the rule's
comparison values. Per the spec, a type mismatch (or a malformed value list)
makes the rule evaluate to false rather than throw. -/
def applyOp : Op → Value → List Value → Bool
  | Op.equals, v, [w] => v == w
  | Op.contains, Value.str s, [Value.str pat] => isSubstr pat s
  | Op.startsWith, Value.str s, [Value.str pat] => String.isPrefixOf pat s
  | Op.endsWith, Value.str s, [Value.str pat] => String.isPrefixOf pat.toList.reverse.asString s.toList.reverse.asString
  | Op.greaterThan, Value.num n, [Value.num m] => m < n
  | Op.lessThan, Value.num n, [Value.num m] => n < m
  | Op.inRange, Value.num n, [Value.num lo, Value.num hi] => lo ≤ n && n ≤ hi
  | Op.timeWindow, Value.num t, [Value.num lo, Value.num hi] => lo ≤ t && t ≤ hi
  | Op.ipRange, Value.num ip, [Value.num base, Value.num plen] => ipInRange ip base plen
  | _, _, _ => false

/-- A Rule, per the spec's data model: attribute path, operator, comparison
value(s). -/
structure Rule where
  path : String
  op : Op
  values : List Value
deriving DecidableEq

/-- Attribute lookup in an evaluation context. -/
def lookupAttr (ctx : List (String × Value)) (path : String) : Option Value :=
  (List.find? (fun p => p.1 == path) ctx).map (fun p => p.2)

/-- Modelled from the spec: rule evaluation (the backend rule matcher is not
in `src/`). A rule referencing a missing attribute evaluates to false, not an
error. -/
def evalRule (ctx : List (String × Value)) (r : Rule) : Bool :=
  match lookupAttr ctx r.path with
  | none => false
  | some v => applyOp r.op v r.values

/-- A Policy, per the spec's data model: id, effect, active flag, rules
(name, timestamps and version are irrelevant to evaluation and omitted). -/
structure Policy where
  pid : String
  effect : Effect
  active : Bool
  rules : List Rule
deriving DecidableEq

/-- A Permission, per the spec's data model: id, resource type, action verb,
optional resource-scope qualifier. -/
structure Permission where
  pid : String
  resource : String
  action : String
  scope : Option String
deriving DecidableEq

/-- A Role node of the Role Graph: id, directly-granted permission ids,
parent role ids. -/
structure Role where
  rid : String
  permIds : List String
  parentIds : List String
deriving DecidableEq

/-- The Role Graph: an explicit adjacency structure over role ids. -/
structure RoleGraph where
  roles : List Role
deriving DecidableEq

/-- Look up a role by id. -/
def findRole (g : RoleGraph) (rid : String) : Option Role :=
  List.find? (fun r => r.rid == rid) g.roles

/-- Parent ids of a role; a dangling id contributes nothing (the spec's
non-fatal gap). -/
def parentsOf (g : RoleGraph) (rid : String) : List String :=
  match findRole g rid with
  | some r => r.parentIds
  | none => []

/-- Directly-granted permission ids of a role; dangling ids contribute
nothing. -/
def permIdsOf (g : RoleGraph) (rid : String) : List String :=
  match findRole g rid with
  | some r => r.permIds
  | none => []

/-- Modelled from the spec: the closure walk of `resolvePermissions` (the
backend Role Graph is not in `src/`). Visited-role tracking short-circuits
re-visits; the fuel bounds the walk by the number of frontier pops, which
never exceeds the seeds plus the total number of parent edges. -/
def reachAux (g : RoleGraph) : Nat → List String → List String → List String
  | 0, visited, _ => visited
  | _ + 1, visited, [] => visited
  | fuel + 1, visited, x :: frontier =>
    if visited.contains x then
      reachAux g fuel visited frontier
    else
      reachAux g fuel (x :: visited) (parentsOf g x ++ frontier)

/-- All role ids reachable from `start` along parent edges (including the
start ids themselves). -/
def reachableRoles (g : RoleGraph) (start : List String) : List String :=
  reachAux g (start.length + (g.roles.map (fun r => r.parentIds.length)).sum + 1)
    [] start

/-- Modelled from the spec: `resolvePermissions(roleIds)` returns the union
of all reachable roles' directly-granted permission ids. -/
def resolvePermissions (g : RoleGraph) (roleIds : List String) : List String :=
  (reachableRoles g roleIds).foldr (fun rid acc => permIdsOf g rid ++ acc) []

/-- Role-graph write rejected because it would create a cycle. -/
inductive CycleError where
  | cycleError
deriving DecidableEq

/-- Would adding the edge child→parent close a cycle: the proposed parent can
already reach the proposed child (or they coincide). -/
def wouldCreateCycle (g : RoleGraph) (child parent : String) : Bool :=
  child == parent || (reachableRoles g [parent]).contains child

/-- Modelled from the spec: `addParent` (the backend Role Graph is not in
`src/`). Performs the reachability check and fails with `CycleError` when the
new edge would create a cycle, rejecting the write atomically. -/
def addParent (g : RoleGraph) (child parent : String) :
    Except CycleError RoleGraph :=
  if wouldCreateCycle g child parent then
    Except.error CycleError.cycleError
  else
    Except.ok { roles := g.roles.map (fun r =>
      if r.rid == child then { r with parentIds := parent :: r.parentIds }
      else r) }

/-- The graph state after an `addParent` call: the new graph on success, the
unchanged graph on failure. -/
def applyAddParent (g : RoleGraph) (child parent : String) : RoleGraph :=
  match addParent g child parent with
  | Except.ok g2 => g2
  | Except.error _ => g

/-- A Subject, per the spec's data model. -/
structure Subject where
  sid : String
  roleIds : List String
  directPermIds : List String
  attrs : List (String × Value)
deriving DecidableEq

/-- The resource of an evaluation: its type, its owner (for the "own records
only" scope qualifier) and its attributes. -/
structure ResourceCtx where
  rtype : String
  owner : String
  attrs : List (String × Value)
deriving DecidableEq

/-- Environmental context of an evaluation. -/
structure EnvCtx where
  attrs : List (String × Value)
deriving DecidableEq

/-- A point-in-time snapshot of Role Graph + Policy Store, as read by one
evaluation. -/
structure Snapshot where
  graph : RoleGraph
  perms : List Permission
  policies : List Policy
deriving DecidableEq

/-- Permission lookup by id in the snapshot. -/
def findPerm (snap : Snapshot) (pid : String) : Option Permission :=
  List.find? (fun p => p.pid == pid) snap.perms

/-- Does a permission grant the requested action on the requested resource,
respecting the scope qualifier ("own" restricts to resources owned by the
subject; an unknown qualifier fails closed). -/
def permMatches (subj : Subject) (res : ResourceCtx) (action : String)
    (perm : Permission) : Bool :=
  perm.action == action && perm.resource == res.rtype &&
    (match perm.scope with
     | none => true
     | some q => q == "own" && res.owner == subj.sid)

/-- Decision outcome. -/
inductive Outcome where
  | allow
  | deny
deriving DecidableEq

/-- A Decision record, per the spec's data model: action, resource, subject
id, outcome, reason chain, plus the fail-closed error flag. -/
structure Decision where
  action : String
  resource : String
  subjectId : String
  outcome : Outcome
  reasons : List String
  errorFlag : Bool
deriving DecidableEq

/-- The subject's effective permissions: resolved role permissions union
directly-granted ones, with dangling permission ids skipped. -/
def subjectPermissions (snap : Snapshot) (subj : Subject) : List Permission :=
  (resolvePermissions snap.graph subj.roleIds ++ subj.directPermIds).filterMap
    (findPerm snap)

/-- Modelled from the spec: the RBAC baseline (step 1 of `evaluate`). If no
effective permission matches the requested action+resource, the baseline is
Deny; otherwise Allow, with the matching permissions as reasons. -/
def rbacBaseline (snap : Snapshot) (subj : Subject) (action : String)
    (res : ResourceCtx) : Outcome × List String :=
  match (subjectPermissions snap subj).filter (permMatches subj res action) with
  | [] => (Outcome.deny, ["rbac:no-matching-permission"])
  | m => (Outcome.allow, m.map (fun p => "permission:" ++ p.pid))

/-- The Decision carrying exactly the RBAC baseline. -/
def rbacDecision (snap : Snapshot) (subj : Subject) (action : String)
    (res : ResourceCtx) : Decision :=
  { action := action, resource := res.rtype, subjectId := subj.sid,
    outcome := (rbacBaseline snap subj action res).1,
    reasons := (rbacBaseline snap subj action res).2,
    errorFlag := false }

/-- The evaluation context: subject, resource and environment attributes. -/
def evalContext (subj : Subject) (res : ResourceCtx) (env : EnvCtx) :
    List (String × Value) :=
  subj.attrs ++ res.attrs ++ env.attrs

/-- A policy matches when all its rules evaluate true (the spec's implicit
AND; resource-type scoping is expressed through rules on the context). -/
def policyMatches (ctx : List (String × Value)) (p : Policy) : Bool :=
  p.rules.all (evalRule ctx)

/-- Modelled from the spec: `listActivePolicies` returns the active policies
in deterministic store order. -/
def listActivePolicies (snap : Snapshot) : List Policy :=
  snap.policies.filter (fun p => p.active)

/-- The active policies matching this evaluation's context, in store order. -/
def matchingPolicies (snap : Snapshot) (subj : Subject) (res : ResourceCtx)
    (env : EnvCtx) : List Policy :=
  (listActivePolicies snap).filter (policyMatches (evalContext subj res env))

/-- Step 5 of `evaluate`: a decision with no traceable reason is an
internal-consistency violation and fails closed — Deny with the error flag
set. -/
def finalize (d : Decision) : Decision :=
  if d.reasons.isEmpty then
    { d with outcome := Outcome.deny, errorFlag := true }
  else d

/-- Modelled from the spec: `evaluate(subject, action, resource,
environment)` with deny-overrides combination (the backend Policy Evaluator
is not in `src/`). Any matching deny policy wins; otherwise a matching allow
policy wins; otherwise the RBAC baseline stands; every path passes through
the fail-closed reason-chain check. -/
def evaluate (snap : Snapshot) (subj : Subject) (action : String)
    (res : ResourceCtx) (env : EnvCtx) : Decision :=
  finalize
    (match List.find? (fun p => p.effect == Effect.deny)
        (matchingPolicies snap subj res env) with
     | some p =>
       { action := action, resource := res.rtype, subjectId := subj.sid,
         outcome := Outcome.deny, reasons := ["policy:" ++ p.pid],
         errorFlag := false }
     | none =>
       match List.find? (fun p => p.effect == Effect.allow)
           (matchingPolicies snap subj res env) with
       | some p =>
         { action := action, resource := res.rtype, subjectId := subj.sid,
           outcome := Outcome.allow, reasons := ["policy:" ++ p.pid],
           errorFlag := false }
       | none => rbacDecision snap subj action res)

end Evaluator

namespace TokenService

/-- A refresh token's claims relevant to rotation: the session it is bound to
and the token-version counter stamped into it. -/
structure RefreshToken where
  sessionId : String
  version : Nat
deriving DecidableEq

/-- Per-session refresh state: the session's current token version and
whether the session has been revoked. -/
structure Session where
  sessionId : String
  version : Nat
  revoked : Bool
deriving DecidableEq

/-- Token-service failures relevant to refresh. -/
inductive TokenError where
  | revokedSessionError
  | authenticationError
deriving DecidableEq

/-- Modelled from the spec: `refresh(refreshToken)` of the Token Service (the
backend is not in `src/`); signature and expiry validation are abstracted
away, the version check is modelled. A token for another session fails
authentication; a revoked session fails with `RevokedSessionError`; a version
mismatch is treated as reuse of a rotated-out token — the whole session is
revoked and the call fails with `RevokedSessionError`; on a version match the
session's counter is incremented and a token with the new version issued. -/
def refresh (s : Session) (t : RefreshToken) :
    Session × Except TokenError RefreshToken :=
  if t.sessionId = s.sessionId then
    if s.revoked then
      (s, Except.error TokenError.revokedSessionError)
    else if t.version = s.version then
      ({ s with version := s.version + 1 },
        Except.ok { sessionId := s.sessionId, version := s.version + 1 })
    else
      ({ s with revoked := true }, Except.error TokenError.revokedSessionError)
  else
    (s, Except.error TokenError.authenticationError)

/-- Session states reachable from a given state by any sequence of later
`refresh` calls with arbitrary tokens. -/
inductive SessionReachable : Session → Session → Prop where
  | refl (s : Session) : SessionReachable s s
  | step (s₁ s₂ : Session) (t : RefreshToken) (h : SessionReachable s₁ s₂) :
      SessionReachable s₁ (refresh s₂ t).1

end TokenService

namespace Mfa

/-- MFA state of an account: the shared secret and the not-yet-consumed
backup codes. -/
structure MfaState where
  secret : Nat
  backupCodes : List Nat
deriving DecidableEq

/-- Result of one `verifyMfaCode` call. -/
inductive VerifyResult where
  | totpAccepted
  | backupAccepted
  | rejected
deriving DecidableEq

/-- Is `code` a currently valid time-windowed one-time code (±1 time-step
clock skew)? `totp` stands for the code-derivation function. -/
def totpMatches (totp : Nat → Nat → Nat) (secret code t : Nat) : Bool :=
  code == totp secret t || code == totp secret (t - 1) ||
    code == totp secret (t + 1)

/-- Modelled from the spec: `verifyMfaCode` (the backend Token Service is not
in `src/`). Accepts a time-windowed one-time code, or consumes a backup code
— single-use: a consumed code is removed from the state, independent of the
secret. -/
def verifyMfaCode (totp : Nat → Nat → Nat) (st : MfaState) (code t : Nat) :
    MfaState × VerifyResult :=
  if totpMatches totp st.secret code t then
    (st, VerifyResult.totpAccepted)
  else if st.backupCodes.contains code then
    ({ st with backupCodes := st.backupCodes.filter (fun c => c != code) },
      VerifyResult.backupAccepted)
  else
    (st, VerifyResult.rejected)

/-- MFA states reachable by any sequence of later `verifyMfaCode` calls. -/
inductive MfaReachable (totp : Nat → Nat → Nat) : MfaState → MfaState → Prop where
  | refl (st : MfaState) : MfaReachable totp st st
  | step (st₁ st₂ : MfaState) (code t : Nat) (h : MfaReachable totp st₁ st₂) :
      MfaReachable totp st₁ (verifyMfaCode totp st₂ code t).1

end Mfa

/-- A two-role graph (role `a` inherits from role `b`) on which adding the
edge b→a would close a cycle. -/
def gcyc : Evaluator.RoleGraph :=
  { roles := [{ rid := "a", permIds := [], parentIds := ["b"] },
              { rid := "b", permIds := [], parentIds := [] }] }

/-- An active deny policy with no rules (it matches every context). -/
def denyPolicy : Evaluator.Policy :=
  { pid := "p-deny", effect := Evaluator.Effect.deny, active := true,
    rules := [] }

/-- A snapshot holding only `denyPolicy`. -/
def snapC1 : Evaluator.Snapshot :=
  { graph := { roles := [] }, perms := [], policies := [denyPolicy] }

/-- A subject with no roles and no grants. -/
def subjC1 : Evaluator.Subject :=
  { sid := "alice", roleIds := [], directPermIds := [], attrs := [] }

/-- A document resource owned by alice. -/
def resC1 : Evaluator.ResourceCtx := { rtype := "doc", owner := "alice", attrs := [] }

/-- An empty environment. -/
def envC1 : Evaluator.EnvCtx := { attrs := [] }

/-- An active policy whose single rule references an attribute absent from
the context, so the policy never matches it. -/
def nomatchPolicy : Evaluator.Policy :=
  { pid := "p-nm", effect := Evaluator.Effect.deny, active := true,
    rules := [{ path := "missing", op := Evaluator.Op.equals,
                values := [Evaluator.Value.num 1] }] }

/-- A read permission on documents, unscoped. -/
def permRead : Evaluator.Permission :=
  { pid := "perm-read", resource := "doc", action := "read", scope := none }

/-- A snapshot with one permission and one never-matching policy. -/
def snapC6 : Evaluator.Snapshot :=
  { graph := { roles := [] }, perms := [permRead], policies := [nomatchPolicy] }

/-- A subject directly granted `perm-read`. -/
def subjC6 : Evaluator.Subject :=
  { sid := "bob", roleIds := [], directPermIds := ["perm-read"], attrs := [] }

/-- A document resource owned by bob. -/
def resC6 : Evaluator.ResourceCtx := { rtype := "doc", owner := "bob", attrs := [] }

/-- An empty environment. -/
def envC6 : Evaluator.EnvCtx := { attrs := [] }

/-- A well-typed frontend `Policy` value whose rules carry different effects,
so no single policy-level effect exists for it. -/
def mixedPolicy : Frontend.Policy :=
  { id := "p1", name := "mixed", description := "",
    rules := [{ effect := Frontend.Effect.allow, action := ["read"],
                resource := ["doc"], conditions := none },
              { effect := Frontend.Effect.deny, action := ["write"],
                resource := ["doc"], conditions := none }],
    created_at := "2024-01-01", version := 1 }

/-- A stored policy at version 7, to be edited. -/
def oldPolicyC7 : Frontend.Policy :=
  { id := "p2", name := "old", description := "", rules := [],
    created_at := "2024-01-01", version := 7 }

/-- The incoming edit of `oldPolicyC7` (its version field is ignored by the
store, which derives the new version from the stored one). -/
def newPolicyC7 : Frontend.Policy :=
  { id := "p2", name := "new", description := "", rules := [],
    created_at := "2024-01-01", version := 0 }


/-- Filtering out one key does not affect lookups of a different key. -/
theorem find?_filter_ne_key (k k2 : String) (s : List (String × String))
    (h : k2 ≠ k) :
    List.find? (fun p => p.1 == k2) (List.filter (fun p => p.1 != k) s)
      = List.find? (fun p => p.1 == k2) s := by
  induction s with
  | nil => rfl
  | cons a as ih =>
    by_cases hak : a.1 = k
    · have h1 : (a.1 != k) = false := by simp [hak]
      have h2 : (a.1 == k2) = false := by
        rw [hak]
        exact beq_eq_false_iff_ne.mpr (Ne.symm h)
      simp [List.filter_cons, h1, List.find?_cons, h2, ih]
    · have h1 : (a.1 != k) = true := by simp [hak]
      cases h2 : (a.1 == k2) with
      | true => simp [List.filter_cons, h1, List.find?_cons, h2]
      | false => simp [List.filter_cons, h1, List.find?_cons, h2, ih]

/-- Reading back the key just written returns the written value. -/
theorem getItem_setItem_self (s : Frontend.Store) (k v : String) :
    Frontend.getItem (Frontend.setItem s k v) k = some v := by
  unfold Frontend.getItem Frontend.setItem
  rw [List.find?_cons_of_pos _ (by simp)]
  rfl

/-- Writing one key does not affect lookups of a different key. -/
theorem getItem_setItem_ne (s : Frontend.Store) (k v k2 : String)
    (h : k2 ≠ k) :
    Frontend.getItem (Frontend.setItem s k v) k2 = Frontend.getItem s k2 := by
  unfold Frontend.getItem Frontend.setItem
  rw [List.find?_cons_of_neg _ (by simp [beq_eq_false_iff_ne, Ne.symm h]),
    find?_filter_ne_key k k2 s h]

/-- Removing a key makes its lookup return nothing. -/
theorem getItem_removeItem_self (s : Frontend.Store) (k : String) :
    Frontend.getItem (Frontend.removeItem s k) k = none := by
  unfold Frontend.getItem Frontend.removeItem
  have hnone : List.find? (fun p => p.1 == k)
      (List.filter (fun p => p.1 != k) s) = none := by
    rw [List.find?_eq_none]
    intro a ha
    have hne := (List.mem_filter.mp ha).2
    simp only [bne_iff_ne, ne_eq] at hne
    simp [hne]
  rw [hnone]
  rfl

/-- Removing one key does not affect lookups of a different key. -/
theorem getItem_removeItem_ne (s : Frontend.Store) (k k2 : String)
    (h : k2 ≠ k) :
    Frontend.getItem (Frontend.removeItem s k) k2 = Frontend.getItem s k2 := by
  unfold Frontend.getItem Frontend.removeItem
  rw [find?_filter_ne_key k k2 s h]

/-- After `handleAuthError` the `access_token` key is gone. -/
theorem handleAuthError_access (s : Frontend.Store) :
    Frontend.getItem (Frontend.handleAuthError s) "access_token" = none := by
  unfold Frontend.handleAuthError
  rw [getItem_removeItem_ne _ _ _ (by decide)]
  exact getItem_removeItem_self _ _

/-- After `handleAuthError` the `refresh_token` key is gone. -/
theorem handleAuthError_refresh (s : Frontend.Store) :
    Frontend.getItem (Frontend.handleAuthError s) "refresh_token" = none :=
  getItem_removeItem_self _ _

/-- C3: a login performed through `AuthContext.login` stores the tokens under
the camelCase keys `accessToken`/`refreshToken`, while `ApiService` reads the
snake_case keys `access_token`/`refresh_token`; consequently, starting from a
store holding neither snake_case key, after such a login the request
interceptor attaches no Authorization header and `ApiService.refreshToken`
fails with its no-refresh-token error. -/
theorem login_storage_key_mismatch
    (apiLogin : String → String → Option Frontend.AuthResponse)
    (post : String → Option Frontend.LoginResponse)
    (s s' : Frontend.Store) (email pw : String)
    (hA : Frontend.getItem s "access_token" = none)
    (hR : Frontend.getItem s "refresh_token" = none)
    (hlogin : Frontend.login apiLogin s email pw = some s') :
    Frontend.requestAuthHeader s' = none
    ∧ (Frontend.refreshToken post s').result
        = Except.error Frontend.RefreshError.noRefreshToken := by
  cases happ : apiLogin email pw with
  | none =>
    unfold Frontend.login at hlogin
    rw [happ] at hlogin
    simp at hlogin
  | some r =>
    unfold Frontend.login at hlogin
    rw [happ] at hlogin
    simp only [Option.map_some', Option.some.injEq] at hlogin
    subst hlogin
    have hA' : Frontend.getItem (Frontend.handleAuthResponse s r)
        "access_token" = none := by
      unfold Frontend.handleAuthResponse
      rw [getItem_setItem_ne _ _ _ _ (by decide),
        getItem_setItem_ne _ _ _ _ (by decide), hA]
    have hR' : Frontend.getItem (Frontend.handleAuthResponse s r)
        "refresh_token" = none := by
      unfold Frontend.handleAuthResponse
      rw [getItem_setItem_ne _ _ _ _ (by decide),
        getItem_setItem_ne _ _ _ _ (by decide), hR]
    constructor
    · unfold Frontend.requestAuthHeader
      rw [hA']
      rfl
    · unfold Frontend.refreshToken
      rw [hR']

/-- C3 witness: a concrete login into an empty store. -/
theorem login_storage_key_mismatch_witness :
    Frontend.requestAuthHeader
        (Frontend.handleAuthResponse ([] : Frontend.Store) ⟨"A", "R"⟩) = none
    ∧ (Frontend.refreshToken (fun _ => none)
        (Frontend.handleAuthResponse ([] : Frontend.Store) ⟨"A", "R"⟩)).result
        = Except.error Frontend.RefreshError.noRefreshToken :=
  login_storage_key_mismatch (fun _ _ => some ⟨"A", "R"⟩) (fun _ => none)
    ([] : Frontend.Store)
    (Frontend.handleAuthResponse ([] : Frontend.Store) ⟨"A", "R"⟩)
    "e" "p" rfl rfl rfl

/-- C10: whenever `ApiService.refreshToken` fails — no stored token or a
failed refresh request — the store afterwards holds neither `access_token`
nor `refresh_token`, and the login-page redirect happened, before the error
is rethrown. -/
theorem refresh_failure_clears_tokens
    (post : String → Option Frontend.LoginResponse) (s : Frontend.Store)
    (e : Frontend.RefreshError)
    (h : (Frontend.refreshToken post s).result = Except.error e) :
    Frontend.getItem (Frontend.refreshToken post s).store "access_token" = none
    ∧ Frontend.getItem (Frontend.refreshToken post s).store "refresh_token" = none
    ∧ (Frontend.refreshToken post s).redirected = true := by
  cases hrt : Frontend.getItem s "refresh_token" with
  | none =>
    unfold Frontend.refreshToken
    rw [hrt]
    exact ⟨handleAuthError_access s, handleAuthError_refresh s, rfl⟩
  | some rt =>
    cases hp : post rt with
    | none =>
      simp only [Frontend.refreshToken, hrt, hp]
      exact ⟨handleAuthError_access s, handleAuthError_refresh s, trivial⟩
    | some resp =>
      exfalso
      simp only [Frontend.refreshToken, hrt, hp] at h
      simp at h

/-- C10 witness: a failing refresh on an empty store. -/
theorem refresh_failure_clears_tokens_witness :
    Frontend.getItem (Frontend.refreshToken (fun _ => none)
        ([] : Frontend.Store)).store "access_token" = none
    ∧ Frontend.getItem (Frontend.refreshToken (fun _ => none)
        ([] : Frontend.Store)).store "refresh_token" = none
    ∧ (Frontend.refreshToken (fun _ => none) ([] : Frontend.Store)).redirected
        = true :=
  refresh_failure_clears_tokens (fun _ => none) ([] : Frontend.Store)
    Frontend.RefreshError.noRefreshToken rfl

/-- C9 counterexample: with no stored refresh token, a 401 makes the response
interceptor reject with the refresh error thrown by `refreshToken`, not with
the original error — the claim that the rejection always carries the original
error is false. -/
theorem interceptor_rejection_not_always_original :
    (Frontend.responseInterceptorOnError (fun _ => none) ([] : Frontend.Store)
        ⟨401, "orig"⟩).rejection
      = Frontend.CarriedError.refreshFailure Frontend.RefreshError.noRefreshToken
    ∧ (Frontend.responseInterceptorOnError (fun _ => none) ([] : Frontend.Store)
        ⟨401, "orig"⟩).rejection
      ≠ Frontend.CarriedError.original ⟨401, "orig"⟩ := by
  constructor
  · rfl
  · decide

/-- C9 (amended): on a 401 the response interceptor invokes `refreshToken`
and never retries the failed request; the rejected promise carries the
original error when the refresh succeeded, and the refresh error when the
refresh failed. -/
theorem interceptor_never_retries
    (post : String → Option Frontend.LoginResponse) (s : Frontend.Store)
    (e : Frontend.HttpError) (h : e.status = 401) :
    (Frontend.responseInterceptorOnError post s e).retried = false
    ∧ (Frontend.responseInterceptorOnError post s e).rejection
        = (match (Frontend.refreshToken post s).result with
           | Except.ok _ => Frontend.CarriedError.original e
           | Except.error re => Frontend.CarriedError.refreshFailure re) := by
  unfold Frontend.responseInterceptorOnError
  have h4 : (e.status == 401) = true := by simp [h]
  rw [h4]
  simp only [if_true]
  cases hres : (Frontend.refreshToken post s).result with
  | ok u => exact ⟨rfl, rfl⟩
  | error re => exact ⟨rfl, rfl⟩

/-- C9 witness: the amended behaviour at a concrete 401. -/
theorem interceptor_never_retries_witness :
    (Frontend.responseInterceptorOnError (fun _ => none) ([] : Frontend.Store)
        ⟨401, "orig"⟩).retried = false
    ∧ (Frontend.responseInterceptorOnError (fun _ => none) ([] : Frontend.Store)
        ⟨401, "orig"⟩).rejection
        = (match (Frontend.refreshToken (fun _ => none)
              ([] : Frontend.Store)).result with
           | Except.ok _ => Frontend.CarriedError.original ⟨401, "orig"⟩
           | Except.error re => Frontend.CarriedError.refreshFailure re) :=
  interceptor_never_retries (fun _ => none) ([] : Frontend.Store)
    ⟨401, "orig"⟩ rfl

/-- C7 counterexample: `mixedPolicy` is a well-typed value of the frontend
`Policy` interface whose rules carry opposite effects, so it determines no
single policy-level effect — the effect field lives on each `PolicyRule`, not
on the `Policy`. -/
theorem policy_effect_is_per_rule :
    Frontend.policyLevelEffect mixedPolicy = none
    ∧ mixedPolicy.rules.map (fun r => r.effect)
        = [Frontend.Effect.allow, Frontend.Effect.deny] := by
  constructor
  · rfl
  · rfl

/-- C7 (amended): the effect field lives on each `PolicyRule` (allow|deny),
not on the `Policy`; a `Policy` carries a version number, and an
`upsertPolicy` edit of an existing policy with a structurally valid rule set
succeeds atomically and bumps every stored entry with that id to exactly the
stored version plus one — strictly greater than before. -/
theorem upsertPolicy_increments_version
    (valid : Frontend.PolicyRule → Bool) (store : List Frontend.Policy)
    (p old : Frontend.Policy)
    (hold : List.find? (fun q => q.id == p.id) store = some old)
    (hvalid : p.rules.all valid = true) :
    Frontend.upsertPolicy valid store p
        = Except.ok (Frontend.upsertEdit store p old.version)
    ∧ ∀ q ∈ Frontend.upsertEdit store p old.version, q.id = p.id →
        (q.version = old.version + 1 ∧ old.version < q.version) := by
  constructor
  · unfold Frontend.upsertPolicy
    rw [hvalid, hold]
    rfl
  · intro q hq hqid
    unfold Frontend.upsertEdit at hq
    obtain ⟨q0, hq0, hmap⟩ := List.mem_map.mp hq
    by_cases hq0id : q0.id = p.id
    · have hb : (q0.id == p.id) = true := by simp [hq0id]
      rw [hb, if_pos rfl] at hmap
      rw [← hmap]
      exact ⟨rfl, Nat.lt_succ_self _⟩
    · have hb : (q0.id == p.id) = false := by simp [hq0id]
      rw [hb, if_neg Bool.false_ne_true] at hmap
      rw [← hmap] at hqid
      exact absurd hqid hq0id

/-- C7 witness: editing the stored policy `p2` (version 7) bumps it to
version 8. -/
theorem upsertPolicy_increments_version_witness :
    Frontend.upsertPolicy (fun _ => true) [oldPolicyC7] newPolicyC7
        = Except.ok (Frontend.upsertEdit [oldPolicyC7] newPolicyC7
            oldPolicyC7.version)
    ∧ ∀ q ∈ Frontend.upsertEdit [oldPolicyC7] newPolicyC7 oldPolicyC7.version,
        q.id = newPolicyC7.id →
        (q.version = oldPolicyC7.version + 1 ∧ oldPolicyC7.version < q.version) :=
  upsertPolicy_increments_version (fun _ => true) [oldPolicyC7] newPolicyC7
    oldPolicyC7 rfl rfl

/-- A list on which a predicate is everywhere false filters to nothing. -/
theorem filter_eq_nil_of_all_not {α : Type} (f : α → Bool) (l : List α)
    (h : l.all (fun x => !f x) = true) : l.filter f = [] := by
  induction l with
  | nil => rfl
  | cons a as ih =>
    rw [List.all_cons, Bool.and_eq_true] at h
    obtain ⟨h1, h2⟩ := h
    have hfa : f a = false := by simpa using h1
    simp [List.filter_cons, hfa, ih h2]

/-- A list containing an element satisfying the predicate has a `find?`
result. -/
theorem find?_mem_pred {α : Type} (f : α → Bool) (l : List α) (x : α)
    (hx : x ∈ l) (hfx : f x = true) : ∃ y, l.find? f = some y := by
  induction l with
  | nil => cases hx
  | cons a as ih =>
    cases hfa : f a with
    | true => exact ⟨a, List.find?_cons_of_pos as hfa⟩
    | false =>
      have hx' : x ∈ as := by
        cases hx with
        | head => exact absurd hfx (by simp [hfa])
        | tail _ hmem => exact hmem
      obtain ⟨y, hy⟩ := ih hx'
      exact ⟨y, by rw [List.find?_cons_of_neg as (by simp [hfa]), hy]⟩

/-- `finalize` leaves a decision with a non-empty reason chain untouched. -/
theorem finalize_eq_self (d : Evaluator.Decision)
    (h : d.reasons.isEmpty = false) : Evaluator.finalize d = d := by
  unfold Evaluator.finalize
  simp [h]

/-- The RBAC-baseline decision always carries a non-empty reason chain. -/
theorem rbacDecision_reasons_ne (snap : Evaluator.Snapshot)
    (subj : Evaluator.Subject) (action : String) (res : Evaluator.ResourceCtx) :
    ((Evaluator.rbacDecision snap subj action res).reasons).isEmpty = false := by
  unfold Evaluator.rbacDecision Evaluator.rbacBaseline
  cases hm : (Evaluator.subjectPermissions snap subj).filter
      (Evaluator.permMatches subj res action) with
  | nil => simp [hm]
  | cons x xs => simp [hm]

/-- C4: an `addParent` call whose new edge would create a cycle fails with
`CycleError`, and the graph state after the failed call equals the state
before it. -/
theorem addParent_cycle_rejected (g : Evaluator.RoleGraph) (c p : String)
    (h : Evaluator.wouldCreateCycle g c p = true) :
    Evaluator.addParent g c p = Except.error Evaluator.CycleError.cycleError
    ∧ Evaluator.applyAddParent g c p = g := by
  constructor
  · unfold Evaluator.addParent
    simp [h]
  · unfold Evaluator.applyAddParent Evaluator.addParent
    simp [h]

/-- C4 witness: on `gcyc` (role a inherits from b) the call
`addParent b a` closes a cycle and is rejected with the graph unchanged. -/
theorem addParent_cycle_rejected_witness :
    Evaluator.addParent gcyc "b" "a"
        = Except.error Evaluator.CycleError.cycleError
    ∧ Evaluator.applyAddParent gcyc "b" "a" = gcyc :=
  addParent_cycle_rejected gcyc "b" "a" (by decide)

/-- C1: for every evaluation input and policy set, if some active policy
whose rules all evaluate true against the context has effect deny, then
`evaluate` returns outcome Deny, regardless of the RBAC baseline and of any
matching allow policies. -/
theorem evaluate_deny_overrides (snap : Evaluator.Snapshot)
    (subj : Evaluator.Subject) (action : String) (res : Evaluator.ResourceCtx)
    (env : Evaluator.EnvCtx) (p : Evaluator.Policy)
    (hp : p ∈ snap.policies) (ha : p.active = true)
    (hm : Evaluator.policyMatches (Evaluator.evalContext subj res env) p = true)
    (he : p.effect = Evaluator.Effect.deny) :
    (Evaluator.evaluate snap subj action res env).outcome
      = Evaluator.Outcome.deny := by
  have hp1 : p ∈ Evaluator.listActivePolicies snap := by
    unfold Evaluator.listActivePolicies
    exact List.mem_filter.mpr ⟨hp, ha⟩
  have hp2 : p ∈ Evaluator.matchingPolicies snap subj res env := by
    unfold Evaluator.matchingPolicies
    exact List.mem_filter.mpr ⟨hp1, hm⟩
  obtain ⟨q, hq⟩ := find?_mem_pred
    (fun x => x.effect == Evaluator.Effect.deny)
    (Evaluator.matchingPolicies snap subj res env) p hp2 (by simp [he])
  unfold Evaluator.evaluate
  rw [hq, finalize_eq_self]
  rfl

/-- C1 witness: a snapshot holding one active matching deny policy makes the
evaluation deny. -/
theorem evaluate_deny_overrides_witness :
    (Evaluator.evaluate snapC1 subjC1 "read" resC1 envC1).outcome
      = Evaluator.Outcome.deny :=
  evaluate_deny_overrides snapC1 subjC1 "read" resC1 envC1 denyPolicy
    (List.Mem.head _) rfl rfl rfl

/-- C6: when no active policy matches the evaluation context, `evaluate`
returns exactly the RBAC baseline decision (resolved role permissions union
directly-granted ones). -/
theorem evaluate_no_policy_match_rbac (snap : Evaluator.Snapshot)
    (subj : Evaluator.Subject) (action : String) (res : Evaluator.ResourceCtx)
    (env : Evaluator.EnvCtx)
    (h : (Evaluator.listActivePolicies snap).all
        (fun p => !Evaluator.policyMatches
            (Evaluator.evalContext subj res env) p) = true) :
    Evaluator.evaluate snap subj action res env
      = Evaluator.rbacDecision snap subj action res := by
  have hmp : Evaluator.matchingPolicies snap subj res env = [] := by
    unfold Evaluator.matchingPolicies
    exact filter_eq_nil_of_all_not _ _ h
  unfold Evaluator.evaluate
  rw [hmp]
  exact finalize_eq_self _ (rbacDecision_reasons_ne snap subj action res)

/-- C6 witness: with only a never-matching active policy in the snapshot,
evaluation returns the RBAC baseline. -/
theorem evaluate_no_policy_match_rbac_witness :
    Evaluator.evaluate snapC6 subjC6 "read" resC6 envC6
      = Evaluator.rbacDecision snapC6 subjC6 "read" resC6 :=
  evaluate_no_policy_match_rbac snapC6 subjC6 "read" resC6 envC6 (by decide)

/-- C5: every Decision emitted by `evaluate` has a non-empty reason chain, so
in particular `evaluate` never returns Allow with an empty reason chain; and
on the internal-consistency path — a decision reaching `finalize` with no
traceable reason — the outcome fails closed to Deny with the error flag. -/
theorem evaluate_reason_chain (snap : Evaluator.Snapshot)
    (subj : Evaluator.Subject) (action : String) (res : Evaluator.ResourceCtx)
    (env : Evaluator.EnvCtx) (d : Evaluator.Decision) :
    ((Evaluator.evaluate snap subj action res env).reasons).isEmpty = false
    ∧ (((Evaluator.evaluate snap subj action res env).outcome
          == Evaluator.Outcome.allow)
        && ((Evaluator.evaluate snap subj action res env).reasons).isEmpty)
        = false
    ∧ (((Evaluator.finalize d).reasons).isEmpty = false
        ∨ (((Evaluator.finalize d).outcome == Evaluator.Outcome.deny)
            && (Evaluator.finalize d).errorFlag) = true) := by
  have h1 : ((Evaluator.evaluate snap subj action res env).reasons).isEmpty
      = false := by
    unfold Evaluator.evaluate
    cases List.find? (fun p => p.effect == Evaluator.Effect.deny)
        (Evaluator.matchingPolicies snap subj res env) with
    | some p =>
      rw [finalize_eq_self]
      all_goals rfl
    | none =>
      cases List.find? (fun p => p.effect == Evaluator.Effect.allow)
          (Evaluator.matchingPolicies snap subj res env) with
      | some p =>
        rw [finalize_eq_self]
        all_goals rfl
      | none =>
        rw [finalize_eq_self]
        all_goals exact rbacDecision_reasons_ne snap subj action res
  refine ⟨h1, ?_, ?_⟩
  · rw [h1]
    exact Bool.and_false _
  · cases hde : d.reasons.isEmpty with
    | true =>
      right
      unfold Evaluator.finalize
      rw [hde, if_pos rfl]
      rfl
    | false =>
      left
      rw [finalize_eq_self d hde]
      exact hde

/-- `refresh` never changes the session id. -/
theorem refresh_fst_sessionId (s : TokenService.Session)
    (t : TokenService.RefreshToken) :
    ((TokenService.refresh s t).1).sessionId = s.sessionId := by
  unfold TokenService.refresh
  split
  · split
    · rfl
    · split
      · rfl
      · rfl
  · rfl

/-- `refresh` never decreases the session's version counter. -/
theorem refresh_fst_version_le (s : TokenService.Session)
    (t : TokenService.RefreshToken) :
    s.version ≤ ((TokenService.refresh s t).1).version := by
  unfold TokenService.refresh
  split
  · split
    · exact Nat.le_refl _
    · split
      · exact Nat.le_succ _
      · exact Nat.le_refl _
  · exact Nat.le_refl _

/-- Along any sequence of refresh calls, the session id is stable. -/
theorem sessionReachable_sessionId {s₁ s₂ : TokenService.Session}
    (h : TokenService.SessionReachable s₁ s₂) :
    s₂.sessionId = s₁.sessionId := by
  induction h with
  | refl => rfl
  | step b t _ ih => rw [refresh_fst_sessionId b t, ih]

/-- Along any sequence of refresh calls, the version counter is monotone. -/
theorem sessionReachable_version_le {s₁ s₂ : TokenService.Session}
    (h : TokenService.SessionReachable s₁ s₂) :
    s₁.version ≤ s₂.version := by
  induction h with
  | refl => exact Nat.le_refl _
  | step b t _ ih => exact Nat.le_trans ih (refresh_fst_version_le b t)

/-- Inversion of a successful `refresh`: the token was bound to the session,
the session was live, the versions matched, and the session counter was
incremented. -/
theorem refresh_ok_inversion (s s' : TokenService.Session)
    (t t' : TokenService.RefreshToken)
    (h : TokenService.refresh s t = (s', Except.ok t')) :
    t.sessionId = s.sessionId ∧ s.revoked = false ∧ t.version = s.version
    ∧ s' = { s with version := s.version + 1 } := by
  unfold TokenService.refresh at h
  split at h
  · rename_i h1
    split at h
    · simp at h
    · rename_i h2
      split at h
      · rename_i h3
        have hs := congrArg Prod.fst h
        exact ⟨h1, by simpa using h2, h3, hs.symm⟩
      · simp at h
  · simp at h

/-- C2: after a successful `refresh` rotated the session to a new version,
presenting the previous (rotated-out) refresh token in any later `refresh`
call — whatever refresh calls happened in between — fails with
`RevokedSessionError` and leaves the session revoked; the old token is never
again accepted. -/
theorem refresh_reuse_detected (s₀ s₁ s₂ : TokenService.Session)
    (t₀ t₁ : TokenService.RefreshToken)
    (hok : TokenService.refresh s₀ t₀ = (s₁, Except.ok t₁))
    (hreach : TokenService.SessionReachable s₁ s₂) :
    (TokenService.refresh s₂ t₀).2
        = Except.error TokenService.TokenError.revokedSessionError
    ∧ ((TokenService.refresh s₂ t₀).1).revoked = true := by
  obtain ⟨hsid, hrev, hver, hs₁⟩ := refresh_ok_inversion s₀ s₁ t₀ t₁ hok
  have e1 : s₁.sessionId = s₀.sessionId := by rw [hs₁]
  have e2 : s₁.version = s₀.version + 1 := by rw [hs₁]
  have hsid2 : t₀.sessionId = s₂.sessionId := by
    rw [hsid, sessionReachable_sessionId hreach, e1]
  have hver2 : t₀.version < s₂.version := by
    have hle := sessionReachable_version_le hreach
    rw [e2] at hle
    rw [hver]
    exact Nat.lt_of_lt_of_le (Nat.lt_succ_self _) hle
  unfold TokenService.refresh
  rw [if_pos hsid2]
  by_cases hrev2 : s₂.revoked = true
  · rw [if_pos hrev2]
    exact ⟨rfl, hrev2⟩
  · rw [if_neg hrev2, if_neg (Nat.ne_of_lt hver2)]
    exact ⟨rfl, rfl⟩

/-- C2 witness: version-0 token reused right after a successful rotation. -/
theorem refresh_reuse_detected_witness :
    (TokenService.refresh ⟨"sess", 1, false⟩ ⟨"sess", 0⟩).2
        = Except.error TokenService.TokenError.revokedSessionError
    ∧ ((TokenService.refresh ⟨"sess", 1, false⟩ ⟨"sess", 0⟩).1).revoked
        = true :=
  refresh_reuse_detected ⟨"sess", 0, false⟩ ⟨"sess", 1, false⟩
    ⟨"sess", 1, false⟩ ⟨"sess", 0⟩ ⟨"sess", 1⟩ rfl
    (TokenService.SessionReachable.refl _)

/-- `verifyMfaCode` never changes the shared secret. -/
theorem verify_fst_secret (totp : Nat → Nat → Nat) (st : Mfa.MfaState)
    (code t : Nat) :
    ((Mfa.verifyMfaCode totp st code t).1).secret = st.secret := by
  unfold Mfa.verifyMfaCode
  split
  · rfl
  · split
    · rfl
    · rfl

/-- `verifyMfaCode` never adds backup codes: a code absent before a call is
absent after it. -/
theorem verify_fst_not_mem (totp : Nat → Nat → Nat) (st : Mfa.MfaState)
    (code t c : Nat) (hc : c ∉ st.backupCodes) :
    c ∉ ((Mfa.verifyMfaCode totp st code t).1).backupCodes := by
  unfold Mfa.verifyMfaCode
  split
  · exact hc
  · split
    · intro hmem
      exact hc (List.mem_of_mem_filter hmem)
    · exact hc

/-- The shared secret is stable across any sequence of verification calls. -/
theorem mfaReachable_secret {totp : Nat → Nat → Nat}
    {st₁ st₂ : Mfa.MfaState} (h : Mfa.MfaReachable totp st₁ st₂) :
    st₂.secret = st₁.secret := by
  induction h with
  | refl => rfl
  | step b code t _ ih => rw [verify_fst_secret totp b code t, ih]

/-- A backup code absent from the state stays absent across any sequence of
verification calls. -/
theorem mfaReachable_not_mem {totp : Nat → Nat → Nat}
    {st₁ st₂ : Mfa.MfaState} (c : Nat) (h : Mfa.MfaReachable totp st₁ st₂)
    (hc : c ∉ st₁.backupCodes) : c ∉ st₂.backupCodes := by
  induction h with
  | refl => exact hc
  | step b code t _ ih => exact verify_fst_not_mem totp b code t c ih

/-- A code never survives being filtered against itself. -/
theorem not_mem_filter_ne_self (l : List Nat) (c : Nat) :
    c ∉ l.filter (fun x => x != c) := by
  intro h
  have hx := (List.mem_filter.mp h).2
  simp at hx

/-- Inversion of a backup-code acceptance: the submitted code was not a
current one-time code, and the state afterwards has it filtered out of the
backup codes. -/
theorem verify_backup_inversion (totp : Nat → Nat → Nat)
    (st st' : Mfa.MfaState) (code t : Nat)
    (h : Mfa.verifyMfaCode totp st code t
        = (st', Mfa.VerifyResult.backupAccepted)) :
    Mfa.totpMatches totp st.secret code t = false
    ∧ st' = { st with
        backupCodes := st.backupCodes.filter (fun c => c != code) } := by
  unfold Mfa.verifyMfaCode at h
  split at h
  · simp at h
  · rename_i h1
    split at h
    · have hs := congrArg Prod.fst h
      exact ⟨by simpa using h1, hs.symm⟩
    · simp at h

/-- C8: a backup code accepted once by `verifyMfaCode` is rejected on every
subsequent verification attempt — after any sequence of later calls — as long
as the submitted value is not a currently valid one-time code; and the shared
secret is unchanged throughout. -/
theorem backup_code_single_use (totp : Nat → Nat → Nat)
    (st st₁ st₂ : Mfa.MfaState) (c t₁ t₂ : Nat)
    (hcons : Mfa.verifyMfaCode totp st c t₁
        = (st₁, Mfa.VerifyResult.backupAccepted))
    (hreach : Mfa.MfaReachable totp st₁ st₂)
    (hnott : Mfa.totpMatches totp st₂.secret c t₂ = false) :
    Mfa.verifyMfaCode totp st₂ c t₂ = (st₂, Mfa.VerifyResult.rejected)
    ∧ st₂.secret = st.secret := by
  obtain ⟨ht, hst₁⟩ := verify_backup_inversion totp st st₁ c t₁ hcons
  have hnm₁ : c ∉ st₁.backupCodes := by
    rw [hst₁]
    exact not_mem_filter_ne_self _ _
  have hnm₂ : c ∉ st₂.backupCodes := mfaReachable_not_mem c hreach hnm₁
  have hsec : st₂.secret = st.secret := by
    rw [mfaReachable_secret hreach, hst₁]
  have hcont : st₂.backupCodes.contains c = false := by
    cases he : st₂.backupCodes.contains c with
    | false => rfl
    | true => exact absurd (List.mem_of_elem_eq_true he) hnm₂
  refine ⟨?_, hsec⟩
  unfold Mfa.verifyMfaCode
  rw [if_neg (by rw [hnott]; exact Bool.false_ne_true),
    if_neg (by rw [hcont]; exact Bool.false_ne_true)]

/-- C8 witness: backup code 5 is consumed once and rejected when presented
again, with secret 100 unchanged. -/
theorem backup_code_single_use_witness :
    Mfa.verifyMfaCode (fun s t => s + t) ⟨100, []⟩ 5 0
        = ((⟨100, []⟩ : Mfa.MfaState), Mfa.VerifyResult.rejected)
    ∧ (⟨100, []⟩ : Mfa.MfaState).secret = (⟨100, [5]⟩ : Mfa.MfaState).secret :=
  backup_code_single_use (fun s t => s + t) ⟨100, [5]⟩ ⟨100, []⟩ ⟨100, []⟩
    5 0 0 rfl (Mfa.MfaReachable.refl _) rfl
